import Mathlib

/-!
Verification of the whisper_connector CLI (src/src/main.rs) against its
specification.  The Rust program is embedded shallowly: the pure
line-parsing logic of `get_audio_devices` is translated directly, and the
effectful parts (subprocess spawning, the stdin/cancellation race, the
HTTP request, `main`'s dispatch) are modelled as functions over explicit
environment records that carry the outcome of each external interaction,
together with an explicit trace of the observable actions performed on
the recording subprocess.
-/

namespace WhisperConnector

/-! ## String primitives mirroring Rust `str` operations.

Lines of the diagnostic stream are ASCII in practice; `str::find` returns
the byte index of the first occurrence of the pattern, which coincides
with the character index used here (the two-character patterns searched
for are ASCII, so the `+ 2` offset and all index comparisons agree
between the byte view and the character view). -/

/-- First index at which `pat` occurs as a contiguous sublist of `l`
(Rust `str::find`). -/
def findSub (pat : List Char) : List Char → Option Nat
  | [] => if pat.isPrefixOf ([] : List Char) then some 0 else none
  | c :: rest =>
    if pat.isPrefixOf (c :: rest) then some 0
    else (findSub pat rest).map (· + 1)

/-- Rust `line.find(pat)` on strings. -/
def strFind (pat s : String) : Option Nat := findSub pat.data s.data

/-- Rust `line.contains(pat)`. -/
def strContains (pat s : String) : Bool := (strFind pat s).isSome

/-- Rust slice `&s[a..b]` (character view; `a ≤ b` holds when this is
used, matching the bounds check in the source). -/
def sliceChars (s : String) (a b : Nat) : String := ⟨(s.data.take b).drop a⟩

/-- Equality of `Except` values is decidable when both components are. -/
instance exceptDecEq {ε α : Type} [DecidableEq ε] [DecidableEq α] :
    DecidableEq (Except ε α) := fun a b =>
  match a, b with
  | .ok x, .ok y =>
    if h : x = y then isTrue (by rw [h])
    else isFalse (by intro hc; injection hc; contradiction)
  | .error x, .error y =>
    if h : x = y then isTrue (by rw [h])
    else isFalse (by intro hc; injection hc; contradiction)
  | .ok _, .error _ => isFalse (by intro hc; injection hc)
  | .error _, .ok _ => isFalse (by intro hc; injection hc)

/-- Split a character list at every newline; always returns at least one
(possibly empty) piece, the pieces not containing the newlines. -/
def splitNl : List Char → List (List Char)
  | [] => [[]]
  | c :: rest =>
    if c = '\n' then [] :: splitNl rest
    else
      match splitNl rest with
      | [] => [[c]]
      | l :: ls => (c :: l) :: ls

/-- Strip one trailing carriage return. -/
def stripCr (l : List Char) : List Char :=
  if l.getLast? = some '\x0d' then l.dropLast else l

/-- Rust `str::lines`: split at `\n`; every `\n`-terminated piece has a
trailing `\r` stripped (so `\r\n` also ends a line); a final piece left
empty by a terminal newline is not returned, and a final piece with no
newline keeps any trailing `\r`. -/
def rustLines (s : String) : List String :=
  let pieces := splitNl s.data
  let withNl := (pieces.dropLast.map stripCr).map (fun l => String.mk l)
  match pieces.getLast? with
  | some [] => withNl
  | some last => withNl ++ [String.mk last]
  | none => withNl

/-! ## The device-enumeration parser (`get_audio_devices`, main.rs 42-71). -/

/-- A line is kept (not `continue`d over) iff it contains the tool's log
tag `dshow @`, is not an "Alternative name" alias line, and carries the
audio marker (main.rs 47-50). -/
def keepLine (line : String) : Bool :=
  strContains "dshow @" line &&
  !(strContains "]  Alternative name \"" line) &&
  strContains " (audio)" line

/-- The error message built at main.rs 63. -/
def malformedMsg (line : String) : String :=
  "malformed line returned from ffmpeg, parsing error: \"" ++ line ++ "\""

/-- The per-line loop of `get_audio_devices` (main.rs 46-69): skip
non-kept lines; on a kept line find the first ` "` and the first `" `;
if either is absent skip; if `start_idx > end_idx` (after the `+ 2`
offset past the opening delimiter) fail with `malformedMsg`; otherwise
push the slice between the delimiters. -/
def processLines : List String → Except String (List String)
  | [] => .ok []
  | line :: rest =>
    if keepLine line then
      match strFind " \"" line, strFind "\" " line with
      | some s, some e =>
        if s + 2 > e then .error (malformedMsg line)
        else (processLines rest).map (fun ds => sliceChars line (s + 2) e :: ds)
      | some _, none => processLines rest
      | none, _ => processLines rest
    else processLines rest

/-- The device name extracted from a kept line with both delimiters
present (main.rs 66). -/
def extractName (line : String) : String :=
  match strFind " \"" line, strFind "\" " line with
  | some s, some e => sliceChars line (s + 2) e
  | _, _ => ""

/-- A kept line carries a valid quoted device name: both delimiters
present and the opening one (plus its two-character width) not past the
closing one. -/
def validLine (line : String) : Bool :=
  match strFind " \"" line, strFind "\" " line with
  | some s, some e => s + 2 ≤ e
  | _, _ => false

/-- A line does not abort the parse: either it is not kept, or its
delimiters are absent (skip), or they are in order. -/
def lineOk (line : String) : Bool :=
  if keepLine line then
    match strFind " \"" line, strFind "\" " line with
    | some s, some e => s + 2 ≤ e
    | _, _ => true
  else true

/-- Environment for one invocation of `get_audio_devices`: the outcome of
spawning the enumeration subprocess, of waiting for it (`.ok code` is a
completed wait with exit-status `code`), whether a stderr pipe handle is
available, and the outcome of reading the diagnostic stream to a string. -/
structure FfmpegEnv where
  spawnResult : Except String Unit
  waitResult : Except String Int
  stderrHandle : Bool
  readResult : Except String String

/-- `get_audio_devices` (main.rs 15-72): propagate spawn/wait/read
failures as `Err`; note the exit status returned by a successful wait is
discarded (`_ => {}` at main.rs 28); then parse the diagnostic lines. -/
def get_audio_devices (env : FfmpegEnv) : Except String (List String) :=
  match env.spawnResult with
  | .error e => .error e
  | .ok _ =>
    match env.waitResult with
    | .error e => .error e
    | .ok _ =>
      if env.stderrHandle then
        match env.readResult with
        | .error e => .error e
        | .ok s => processLines (rustLines s)
      else .error "failed to get stderr from process"

/-! ## The transcription request (`send_request`, main.rs 74-109). -/

/-- A JSON value, used as the already-lexed shape of the response body;
the body text is modelled as `Option Json`, `none` standing for text
that is not valid JSON at all. -/
inductive Json where
  | str (s : String)
  | num (n : Int)
  | bool (b : Bool)
  | null
  | arr (elems : List Json)
  | obj (fields : List (String × Json))

/-- `serde_json::from_str::<SimpleOpenAIResponse>` on a lexed body: the
struct `SimpleOpenAIResponse { text: String }` deserializes from a JSON
object with exactly one `text` field whose value is a string; unknown
fields are ignored (serde default), a missing, duplicated or
non-string `text` field and a non-object body are errors.  The error
text abstracts the serde message but is kept disjoint from the HTTP
status error below, as in the libraries. -/
def deserializeSimpleOpenAIResponse (j : Json) : Except String String :=
  match j with
  | .obj fields =>
    match fields.filter (fun f => f.fst = "text") with
    | [(_, .str s)] => .ok s
    | [] => .error "JSON parse error: missing field text"
    | [(_, _)] => .error "JSON parse error: invalid type for field text"
    | _ => .error "JSON parse error: duplicate field text"
  | _ => .error "JSON parse error: expected object"

/-- The message produced by `error_for_status` followed by
`error_to_string` for a 4xx/5xx status (abstracted text, carrying the
status and disjoint from every JSON parse error). -/
def statusErrMsg (status : Nat) : String :=
  "HTTP status error: " ++ toString status

/-- `reqwest::Response::error_for_status` errs exactly on client-error
(400-499) and server-error (500-599) statuses. -/
def isErrorStatus (status : Nat) : Bool := 400 ≤ status && status ≤ 599

/-- The success class of HTTP statuses as the specification uses the
term ("non-success HTTP status"): 2xx.  Stated from the spec's words,
for comparison with `isErrorStatus`, which is what the code checks. -/
def isSuccessStatus (status : Nat) : Bool := 200 ≤ status && status ≤ 299

/-- Environment for one invocation of `send_request`: the outcome of
building the multipart file part (`mime_str`), of the transport-level
send (`.error` means no response was received), the response status,
the outcome of reading the response body to text, and the lexed body. -/
structure SendEnv where
  mimeResult : Except String Unit
  transport : Except String Unit
  status : Nat
  bodyRead : Except String Unit
  bodyJson : Option Json

/-- Outcome of a Rust function that can also panic. -/
inductive SOutcome where
  | panicked (msg : String)
  | ret (r : Except String String)
deriving DecidableEq

/-- `send_request` (main.rs 74-109): a `mime_str` failure is returned as
`Err` (`?` at main.rs 88); a transport failure panics through
`.expect("Should return response from server")` (main.rs 100);
`error_for_status` turns a 4xx/5xx status into `Err` (main.rs 102);
a body-read failure is `Err` (main.rs 104); the body is deserialized
into `SimpleOpenAIResponse` (main.rs 106) and its `text` field returned
verbatim (main.rs 108). -/
def send_request (env : SendEnv) : SOutcome :=
  match env.mimeResult with
  | .error e => .ret (.error e)
  | .ok _ =>
    match env.transport with
    | .error _ => .panicked "Should return response from server"
    | .ok _ =>
      if isErrorStatus env.status then .ret (.error (statusErrMsg env.status))
      else
        match env.bodyRead with
        | .error e => .ret (.error e)
        | .ok _ =>
          match env.bodyJson with
          | none => .ret (.error "JSON parse error: invalid JSON text")
          | some j => .ret (deserializeSimpleOpenAIResponse j)

/-- The `text` field the body deserializes to, if any. -/
def bodyTextField (b : Option Json) : Option String :=
  match b with
  | none => none
  | some j =>
    match deserializeSimpleOpenAIResponse j with
    | .ok s => some s
    | .error _ => none

/-! ## The recording session (`execute_parse_command`, main.rs 133-210). -/

/-- Observable actions of one invocation, in program order: deleting the
stale temp file, spawning the recording subprocess, killing it, writing
a byte to its stdin, flushing that stream, waiting for its exit,
opening the recorded file, and entering `send_request`.  `listDevices`
and `enterParse` are emitted by `main`'s dispatch. -/
inductive Ev where
  | listDevices
  | enterParse
  | removeTempFile
  | spawnRecorder
  | killRecorder
  | writeRecorderStdin (c : Char)
  | flushRecorderStdin
  | waitRecorder
  | openOutput
  | callSend
deriving DecidableEq

/-- Which of the two racing events of the `tokio::select!` at
main.rs 171-180 completes first: the cancellation token or a byte read
from this process's stdin. -/
inductive RaceWinner where
  | cancelledFirst
  | stdinByteFirst
deriving DecidableEq

/-- Environment for one invocation of `execute_parse_command`: the
outcome of computing the temp-file path, of spawning the recorder, the
select-race winner, and the outcomes of the kill, the stdin-handle
take, the quit-byte write, the flush, the wait and the file open,
plus the environment of the nested `send_request` call. -/
structure ParseEnv where
  tempPath : Except String (String × String)
  spawnResult : Except String Unit
  race : RaceWinner
  killResult : Except String Unit
  stdinHandle : Bool
  writeResult : Except String Unit
  flushResult : Except String Unit
  waitResult : Except String Unit
  openResult : Except String Unit
  sendEnv : SendEnv

/-- Outcome of `execute_parse_command`: a normal `Result`, a direct
`exit(1)` (main.rs 142), or a propagated panic. -/
inductive POut where
  | exited (code : Nat)
  | panicked (msg : String)
  | ret (r : Except String String)
deriving DecidableEq

/-- Result of running `execute_parse_command`: its outcome, the lines it
printed to stdout itself (only the temp-path error line), and the trace
of observable actions. -/
structure PResult where
  out : POut
  printed : List String
  events : List Ev
deriving DecidableEq

/-- `execute_parse_command` (main.rs 133-210), in source order: temp-path
failure prints and exits 1; the stale file is removed (errors ignored,
main.rs 146); a spawn failure is `Err`; then the select race: if
cancellation wins the recorder is killed and the call returns
`Ok("")` (main.rs 171-180), if a stdin byte wins the quit byte `q` is
written and flushed, the recorder is awaited, the output file opened
and `send_request` called, each failure being a distinct `Err`. -/
def execute_parse_command (env : ParseEnv) : PResult :=
  match env.tempPath with
  | .error e => ⟨.exited 1, ["Error occured: " ++ e], []⟩
  | .ok _ =>
    match env.spawnResult with
    | .error e =>
      ⟨.ret (.error ("could not spawn ffmpeg process that listens to microphone: " ++ e)),
        [], [.removeTempFile]⟩
    | .ok _ =>
      match env.race with
      | .cancelledFirst =>
        match env.killResult with
        | .error e =>
          ⟨.ret (.error ("Failed to kill ffmpeg instance: " ++ e)), [],
            [.removeTempFile, .spawnRecorder, .killRecorder]⟩
        | .ok _ =>
          ⟨.ret (.ok ""), [], [.removeTempFile, .spawnRecorder, .killRecorder]⟩
      | .stdinByteFirst =>
        if env.stdinHandle then
          match env.writeResult with
          | .error e =>
            ⟨.ret (.error ("Failed to send 'q' key to ffmpeg instance: " ++ e)), [],
              [.removeTempFile, .spawnRecorder, .writeRecorderStdin 'q']⟩
          | .ok _ =>
            match env.flushResult with
            | .error e =>
              ⟨.ret (.error ("Failed to flush stdin of ffmpeg instance: " ++ e)), [],
                [.removeTempFile, .spawnRecorder, .writeRecorderStdin 'q',
                 .flushRecorderStdin]⟩
            | .ok _ =>
              match env.waitResult with
              | .error e =>
                ⟨.ret (.error ("Failed to kill ffmpeg instance: " ++ e)), [],
                  [.removeTempFile, .spawnRecorder, .writeRecorderStdin 'q',
                   .flushRecorderStdin, .waitRecorder]⟩
              | .ok _ =>
                match env.openResult with
                | .error e =>
                  ⟨.ret (.error ("Error occured while trying to read recorded audio sample: "
                      ++ e)), [],
                    [.removeTempFile, .spawnRecorder, .writeRecorderStdin 'q',
                     .flushRecorderStdin, .waitRecorder, .openOutput]⟩
                | .ok _ =>
                  let evs := [Ev.removeTempFile, Ev.spawnRecorder,
                    Ev.writeRecorderStdin 'q', Ev.flushRecorderStdin, Ev.waitRecorder,
                    Ev.openOutput, Ev.callSend]
                  match send_request env.sendEnv with
                  | .panicked m => ⟨.panicked m, [], evs⟩
                  | .ret (.ok v) => ⟨.ret (.ok v), [], evs⟩
                  | .ret (.error e) => ⟨.ret (.error e), [], evs⟩
        else
          ⟨.ret (.error "Unknown error occured while taking STDIN from ffmpeg process."),
            [], [.removeTempFile, .spawnRecorder]⟩

/-! ## `main` (main.rs 212-286). -/

/-- Environment for one program invocation: the command-line arguments
(after the binary name, as `gd_terminal_utils::get_cmd_args` returns
them), the `OPENAI_AUTH_KEY` environment variable, and the environments
of the enumeration and recording calls. -/
structure MainEnv where
  cmdArgs : List String
  openaiKey : Option String
  ffmpegEnv : FfmpegEnv
  parseEnv : ParseEnv

/-- Final outcome of the process. -/
inductive MOutcome where
  | exited (code : Nat)
  | panicked (msg : String)
deriving DecidableEq

/-- Result of running `main`: process outcome, stdout lines, stderr
lines, and the trace of observable actions. -/
structure MainResult where
  out : MOutcome
  stdoutLines : List String
  stderrLines : List String
  events : List Ev
deriving DecidableEq

/-- 1-based numbering of the device list as printed by the `devices`
subcommand (main.rs 231-236). -/
def numberFrom : Nat → List String → List String
  | _, [] => []
  | i, d :: ds => (toString i ++ ". " ++ d) :: numberFrom (i + 1) ds

/-- The tail of `main`'s `transcribe` arm (main.rs 274-277): run
`execute_parse_command`; `Ok` is printed to stdout, an `Err` is printed
to stderr, and in both cases `main` falls off the end of the `match`
and the process exits 0; an `exit` or panic inside propagates. -/
def runSession (penv : ParseEnv) : MainResult :=
  let pr := execute_parse_command penv
  let evs := Ev.listDevices :: Ev.enterParse :: pr.events
  match pr.out with
  | .exited c => ⟨.exited c, pr.printed, [], evs⟩
  | .panicked m => ⟨.panicked m, pr.printed, [], evs⟩
  | .ret (.ok v) => ⟨.exited 0, pr.printed ++ [v], [], evs⟩
  | .ret (.error e) => ⟨.exited 0, pr.printed, [e], evs⟩

/-- The `transcribe` arm after the key and arity checks (main.rs
252-278): language allow-list, device enumeration, device membership,
then the session. -/
def transcribeChecked (ffenv : FfmpegEnv) (penv : ParseEnv) (lang dev : String) :
    MainResult :=
  if lang ≠ "en" ∧ lang ≠ "pl" then
    ⟨.exited 1, [], ["Unknown language, supported languages: 'en', 'pl'."], []⟩
  else
    match get_audio_devices ffenv with
    | .error e => ⟨.exited 1, [], [e], [.listDevices]⟩
    | .ok ds =>
      if ds.contains dev then runSession penv
      else ⟨.exited 1, [], ["This audio device does not exist."], [.listDevices]⟩

/-- `main` (main.rs 212-286): dispatch on the first argument.  For
`transcribe`: missing key and wrong arity exit 1, then
`transcribeChecked` runs the validations and the session. -/
def mainModel (env : MainEnv) : MainResult :=
  match env.cmdArgs with
  | [] =>
    ⟨.exited 1, [], ["Expected at least 1 argument, received 0."], []⟩
  | arg0 :: _ =>
    if arg0 = "devices" then
      match get_audio_devices env.ffmpegEnv with
      | .error e => ⟨.exited 1, [], [e], [.listDevices]⟩
      | .ok ds => ⟨.exited 0, numberFrom 1 ds, [], [.listDevices]⟩
    else if arg0 = "transcribe" then
      match env.openaiKey with
      | none =>
        ⟨.exited 1, ["Required OPENAI_AUTH_KEY environment variable has not been set."],
          [], []⟩
      | some _ =>
        if env.cmdArgs.length ≠ 3 then
          ⟨.exited 1, [],
            ["Expected 3 arguments. Usage: whisper_connector.exe transcribe [language] [audio_device_name]"],
            []⟩
        else
          transcribeChecked env.ffmpegEnv env.parseEnv
            (env.cmdArgs.getD 1 "") (env.cmdArgs.getD 2 "")
    else
      ⟨.exited 0,
        ["Usage:", "\twhisper_connector.exe transcribe [language] [audio_device_name]",
         "\twhisper_connector.exe devices"], [], []⟩

/-! ## Sample environments for concrete evaluations. -/

/-- An enumeration run that completes with status 0 and reports one
audio device, `Mic A`. -/
def sampleFfmpegEnv : FfmpegEnv :=
  ⟨.ok (), .ok 0, true, .ok "[dshow @ 0x1]  \"Mic A\" (audio)\n"⟩

/-- A recording session whose external interactions all succeed. -/
def sampleParseEnv : ParseEnv :=
  ⟨.ok ("f.mp3", "/tmp/f.mp3"), .ok (), .cancelledFirst, .ok (), true, .ok (),
    .ok (), .ok (), .ok (), ⟨.ok (), .ok (), 200, .ok (), none⟩⟩

/-- A recording session whose recorder subprocess fails to spawn. -/
def failSpawnParseEnv : ParseEnv :=
  ⟨.ok ("f.mp3", "/tmp/f.mp3"), .error "program not found", .cancelledFirst,
    .ok (), true, .ok (), .ok (), .ok (), .ok (),
    ⟨.ok (), .ok (), 200, .ok (), none⟩⟩

/-- `transcribe en "Mic Z"` with the key set but the device absent. -/
def unknownDeviceEnv : MainEnv :=
  ⟨["transcribe", "en", "Mic Z"], some "sk-key", sampleFfmpegEnv, sampleParseEnv⟩

/-- `transcribe de "Mic A"` with an unsupported language. -/
def badLanguageEnv : MainEnv :=
  ⟨["transcribe", "de", "Mic A"], some "sk-key", sampleFfmpegEnv, sampleParseEnv⟩

/-- A fully valid `transcribe en "Mic A"` invocation whose recording
subprocess fails to spawn, so `execute_parse_command` returns an `Err`. -/
def failingRecorderEnv : MainEnv :=
  ⟨["transcribe", "en", "Mic A"], some "sk-key", sampleFfmpegEnv, failSpawnParseEnv⟩

/-! ## Lemmas about the line parser. -/

theorem keepLine_of_alias {line : String}
    (h : strContains "]  Alternative name \"" line = true) :
    keepLine line = false := by
  simp [keepLine, h]

theorem processLines_cons_not_kept {line : String} (rest : List String)
    (h : keepLine line = false) :
    processLines (line :: rest) = processLines rest := by
  simp [processLines, h]

theorem processLines_cons_valid {line : String} {s e : Nat} (rest : List String)
    (hk : keepLine line = true) (hs : strFind " \"" line = some s)
    (he : strFind "\" " line = some e) (hle : s + 2 ≤ e) :
    processLines (line :: rest) =
      (processLines rest).map (fun ds => sliceChars line (s + 2) e :: ds) := by
  simp only [processLines, hk, if_true, hs, he]
  rw [if_neg (show ¬ s + 2 > e by omega)]

theorem processLines_cons_nodelim {line : String} (rest : List String)
    (hk : keepLine line = true)
    (h : strFind " \"" line = none ∨ strFind "\" " line = none) :
    processLines (line :: rest) = processLines rest := by
  rw [processLines, if_pos hk]
  rcases h with h | h
  · rw [h]
  · rw [h]
    cases strFind " \"" line <;> rfl

theorem processLines_cons_malformed {line : String} {s e : Nat} (rest : List String)
    (hk : keepLine line = true) (hs : strFind " \"" line = some s)
    (he : strFind "\" " line = some e) (hgt : e < s + 2) :
    processLines (line :: rest) = .error (malformedMsg line) := by
  simp only [processLines, hk, if_true, hs, he]
  rw [if_pos (show s + 2 > e by omega)]

theorem lineOk_elim {l : String} (hl : lineOk l = true) (hk : keepLine l = true)
    {s e : Nat} (hs : strFind " \"" l = some s) (he : strFind "\" " l = some e) :
    s + 2 ≤ e := by
  unfold lineOk at hl
  rw [if_pos hk, hs, he] at hl
  simpa using hl

theorem processLines_append_error {pre X : List String} {msg : String}
    (hok : ∀ l ∈ pre, lineOk l = true)
    (hX : processLines X = .error msg) :
    processLines (pre ++ X) = .error msg := by
  induction pre with
  | nil => simpa
  | cons l pre ih =>
    have hl := hok l (List.mem_cons_self _ _)
    have ih' := ih (fun l' h' => hok l' (List.mem_cons_of_mem _ h'))
    rw [List.cons_append]
    by_cases hk : keepLine l
    · cases hs : strFind " \"" l with
      | none => rw [processLines_cons_nodelim _ hk (Or.inl hs)]; exact ih'
      | some s =>
        cases he : strFind "\" " l with
        | none => rw [processLines_cons_nodelim _ hk (Or.inr he)]; exact ih'
        | some e =>
          have hle := lineOk_elim hl hk hs he
          rw [processLines_cons_valid _ hk hs he hle, ih']
          rfl
    · rw [processLines_cons_not_kept _ (by simpa using hk)]
      exact ih'

theorem processLines_allValid {L : List String}
    (hv : ∀ l ∈ L, keepLine l = true → validLine l = true) :
    processLines L = .ok ((L.filter keepLine).map extractName) := by
  induction L with
  | nil => rfl
  | cons line rest ih =>
    have hrest := ih (fun l h => hv l (List.mem_cons_of_mem _ h))
    by_cases hk : keepLine line
    · have hval := hv line (List.mem_cons_self _ _) hk
      unfold validLine at hval
      cases hs : strFind " \"" line with
      | none => rw [hs] at hval; simp at hval
      | some s =>
        cases he : strFind "\" " line with
        | none => rw [hs, he] at hval; simp at hval
        | some e =>
          rw [hs, he] at hval
          have hle : s + 2 ≤ e := by simpa using hval
          rw [processLines_cons_valid _ hk hs he hle, hrest]
          simp [List.filter_cons, hk, extractName, hs, he, Except.map]
    · rw [processLines_cons_not_kept _ (by simpa using hk), hrest]
      simp [List.filter_cons, hk]

/-! ## Claims C2, C3, C4, C10. -/

/-- Claim C2: for every enumeration text whose kept lines (containing
the `dshow @` tag and the ` (audio)` marker, not alias lines) all carry
a valid quoted device name, `get_audio_devices` returns `Ok` with
exactly one entry per kept line — its extracted name — in input order. -/
theorem c2_devices_in_input_order (env : FfmpegEnv) (code : Int) (s : String)
    (h1 : env.spawnResult = .ok ()) (h2 : env.waitResult = .ok code)
    (h3 : env.stderrHandle = true) (h4 : env.readResult = .ok s)
    (hv : ∀ l ∈ rustLines s, keepLine l = true → validLine l = true) :
    get_audio_devices env = .ok (((rustLines s).filter keepLine).map extractName) := by
  unfold get_audio_devices
  rw [h1, h2, h3, h4, if_pos rfl]
  exact processLines_allValid hv

/-- Witness for C2 on a concrete two-device enumeration text. -/
theorem c2_devices_in_input_order_witness :
    get_audio_devices
      ⟨.ok (), .ok 0, true,
        .ok "[dshow @ 0x1]  \"Mic A\" (audio)\nnoise\n[dshow @ 0x1]  \"Mic B\" (audio)\n"⟩
      = .ok ["Mic A", "Mic B"] := by
  rw [c2_devices_in_input_order _ 0
    "[dshow @ 0x1]  \"Mic A\" (audio)\nnoise\n[dshow @ 0x1]  \"Mic B\" (audio)\n"
    rfl rfl rfl rfl (by decide)]
  decide

/-- Claim C3: on a kept line the extracted device name is exactly the
substring between the first ` "` delimiter and the first subsequent
`" ` delimiter; a kept line missing either delimiter is skipped without
error; and a kept line whose ` "` delimiter sits after the `" `
delimiter makes the whole parse fail with the malformed-line error
carrying that line, so no partial device list is returned. -/
theorem c3_delimiter_window (line : String) (pre rest : List String) (s e : Nat) :
    (keepLine line = true → strFind " \"" line = some s →
      strFind "\" " line = some e → s + 2 ≤ e →
      processLines (line :: rest) =
        (processLines rest).map (fun ds => sliceChars line (s + 2) e :: ds))
    ∧ (keepLine line = true →
        (strFind " \"" line = none ∨ strFind "\" " line = none) →
        processLines (line :: rest) = processLines rest)
    ∧ (keepLine line = true → strFind " \"" line = some s →
        strFind "\" " line = some e → e < s →
        (∀ l ∈ pre, lineOk l = true) →
        processLines (pre ++ line :: rest) = .error (malformedMsg line)) := by
  refine ⟨fun hk hs he hle => processLines_cons_valid rest hk hs he hle,
    fun hk h => processLines_cons_nodelim rest hk h,
    fun hk hs he hlt hok => ?_⟩
  exact processLines_append_error hok
    (processLines_cons_malformed rest hk hs he (by omega))

/-- Witness for C3: all three conjuncts at concrete lines — a valid
device line, a kept line with no quotes, and a kept line whose first
`" ` precedes its first ` "`. -/
theorem c3_delimiter_window_witness :
    (processLines ["[dshow @ 0x1]  \"Mic A\" (audio)"] =
      (processLines []).map
        (fun ds => sliceChars "[dshow @ 0x1]  \"Mic A\" (audio)" (14 + 2) 21 :: ds))
    ∧ (processLines ["[dshow @ 0x1]  Mic A (audio)"] = processLines [])
    ∧ (processLines (["noise"] ++ ["\"x\" dshow @ y \" (audio)"]) =
        .error (malformedMsg "\"x\" dshow @ y \" (audio)")) :=
  ⟨(c3_delimiter_window "[dshow @ 0x1]  \"Mic A\" (audio)" [] [] 14 21).1
      (by decide) (by decide) (by decide) (by decide),
    (c3_delimiter_window "[dshow @ 0x1]  Mic A (audio)" [] [] 0 0).2.1
      (by decide) (Or.inl (by decide)),
    (c3_delimiter_window "\"x\" dshow @ y \" (audio)" ["noise"] [] 13 2).2.2
      (by decide) (by decide) (by decide) (by decide) (by decide)⟩

/-- Claim C4: an "alternative name" alias line contributes no entry to
the device list and never causes a parse failure, however malformed its
quoting is: deleting it from the line sequence leaves the parse result
unchanged. -/
theorem c4_alias_lines_inert (pre post : List String) (line : String)
    (h : strContains "]  Alternative name \"" line = true) :
    processLines (pre ++ line :: post) = processLines (pre ++ post) := by
  induction pre with
  | nil => exact processLines_cons_not_kept post (keepLine_of_alias h)
  | cons l pre ih =>
    rw [List.cons_append, List.cons_append]
    by_cases hk : keepLine l
    · cases hs : strFind " \"" l with
      | none =>
        rw [processLines_cons_nodelim _ hk (Or.inl hs),
          processLines_cons_nodelim _ hk (Or.inl hs), ih]
      | some s =>
        cases he : strFind "\" " l with
        | none =>
          rw [processLines_cons_nodelim _ hk (Or.inr he),
            processLines_cons_nodelim _ hk (Or.inr he), ih]
        | some e =>
          by_cases hle : s + 2 ≤ e
          · rw [processLines_cons_valid _ hk hs he hle,
              processLines_cons_valid _ hk hs he hle, ih]
          · rw [processLines_cons_malformed _ hk hs he (by omega),
              processLines_cons_malformed _ hk hs he (by omega)]
    · rw [processLines_cons_not_kept _ (by simpa using hk),
        processLines_cons_not_kept _ (by simpa using hk), ih]

/-- Witness for C4: a malformed alias line (quote delimiters inverted)
in the middle of an enumeration changes nothing. -/
theorem c4_alias_lines_inert_witness :
    processLines
      (["[dshow @ 0x1]  \"Mic A\" (audio)"] ++
        "[dshow @ 0x1]  Alternative name \"x\" dshow @ \" (audio)" ::
          ["[dshow @ 0x1]  \"Mic B\" (audio)"]) =
      processLines
        (["[dshow @ 0x1]  \"Mic A\" (audio)"] ++ ["[dshow @ 0x1]  \"Mic B\" (audio)"]) :=
  c4_alias_lines_inert ["[dshow @ 0x1]  \"Mic A\" (audio)"]
    ["[dshow @ 0x1]  \"Mic B\" (audio)"]
    "[dshow @ 0x1]  Alternative name \"x\" dshow @ \" (audio)" (by decide)

/-- Claim C10: after a successful `wait`, the exit status of the
enumeration subprocess is discarded — for any status `code`, including
failing ones, `get_audio_devices` proceeds to read and parse the
diagnostic stream, so it returns `Ok` whenever the parse succeeds. -/
theorem c10_exit_status_ignored (env : FfmpegEnv) (code : Int) (s : String)
    (h1 : env.spawnResult = .ok ()) (h2 : env.waitResult = .ok code)
    (h3 : env.stderrHandle = true) (h4 : env.readResult = .ok s) :
    get_audio_devices env = processLines (rustLines s) := by
  unfold get_audio_devices
  rw [h1, h2, h3, h4, if_pos rfl]

/-- Witness for C10: a failing exit status (`1`) with a well-formed
diagnostic stream still yields `Ok` with the parsed device. -/
theorem c10_exit_status_ignored_witness :
    get_audio_devices ⟨.ok (), .ok 1, true, .ok "[dshow @ 0x1]  \"Mic A\" (audio)\n"⟩
      = .ok ["Mic A"] := by
  rw [c10_exit_status_ignored _ 1 "[dshow @ 0x1]  \"Mic A\" (audio)\n" rfl rfl rfl rfl]
  decide

/-! ## Lemmas about `send_request`. -/

/-- With the multipart part built, a response received and its body
read, `send_request` reduces to the status check followed by the body
deserialization. -/
theorem send_request_eq (env : SendEnv) (hm : env.mimeResult = .ok ())
    (ht : env.transport = .ok ()) (hb : env.bodyRead = .ok ()) :
    send_request env =
      if isErrorStatus env.status then .ret (.error (statusErrMsg env.status))
      else
        match env.bodyJson with
        | none => .ret (.error "JSON parse error: invalid JSON text")
        | some j => .ret (deserializeSimpleOpenAIResponse j) := by
  unfold send_request
  rw [hm, ht, hb]

/-- Every deserialization error message starts with `J` (they are the
JSON parse errors), while `statusErrMsg` starts with `H`. -/
theorem deserialize_error_head (j : Json) (e : String)
    (hd : deserializeSimpleOpenAIResponse j = .error e) :
    e.data.head? = some 'J' := by
  unfold deserializeSimpleOpenAIResponse at hd
  split at hd
  · split at hd
    all_goals
      first
        | exact Except.noConfusion hd
        | (injection hd with h; rw [← h]; rfl)
  · injection hd with h; rw [← h]; rfl

/-- A string starting with `J` is not a `statusErrMsg`, which starts
with `H`. -/
theorem parse_err_ne_status_err {e : String} (status : Nat)
    (hhead : e.data.head? = some 'J') : e ≠ statusErrMsg status := by
  intro h
  have hH : (statusErrMsg status).data.head? = some 'H' := rfl
  rw [h, hH] at hhead
  exact absurd hhead (by decide)

/-! ## Claims C7, C9. -/

/-- Counterexample to claim C7 as stated: `error_for_status` rejects
only 4xx/5xx, so a `304` response — a non-success status — whose body
is valid JSON with a `text` field makes `send_request` return `Ok`,
not an error. -/
theorem c7_counterexample :
    send_request ⟨.ok (), .ok (), 304, .ok (), some (.obj [("text", .str "hello")])⟩ =
      .ret (.ok "hello")
    ∧ isSuccessStatus 304 = false :=
  ⟨rfl, rfl⟩

/-- Claim C7 (amended): once the multipart part is built, a response
received and its body read, `send_request` errs iff the status is a
client or server error (400-599, reqwest's `error_for_status`) or the
body does not deserialize to a JSON object with a string `text` field;
on a 400-599 status the error is the status error, which is distinct
from every parse error; otherwise, with a deserializable body, the
`text` value is returned verbatim. -/
theorem c7_status_and_parse (env : SendEnv)
    (hm : env.mimeResult = .ok ()) (ht : env.transport = .ok ())
    (hb : env.bodyRead = .ok ()) :
    ((∃ e, send_request env = .ret (.error e)) ↔
      (isErrorStatus env.status = true ∨ bodyTextField env.bodyJson = none))
    ∧ (∀ s, bodyTextField env.bodyJson = some s → isErrorStatus env.status = false →
        send_request env = .ret (.ok s))
    ∧ (isErrorStatus env.status = true →
        send_request env = .ret (.error (statusErrMsg env.status)))
    ∧ (∀ e, bodyTextField env.bodyJson = none → isErrorStatus env.status = false →
        send_request env = .ret (.error e) → e ≠ statusErrMsg env.status) := by
  have hch := send_request_eq env hm ht hb
  by_cases hst : isErrorStatus env.status = true
  · rw [if_pos hst] at hch
    refine ⟨⟨fun _ => Or.inl hst, fun _ => ⟨_, hch⟩⟩, ?_, fun _ => hch, ?_⟩
    · intro s _ hfalse
      rw [hst] at hfalse
      exact absurd hfalse (by decide)
    · intro e _ hfalse
      rw [hst] at hfalse
      exact absurd hfalse (by decide)
  · have hstf : isErrorStatus env.status = false := by
      simpa using hst
    rw [if_neg hst] at hch
    cases hj : env.bodyJson with
    | none =>
      rw [hj] at hch
      have hch2 : send_request env = .ret (.error "JSON parse error: invalid JSON text") :=
        hch
      have hbt : bodyTextField (none : Option Json) = none := rfl
      refine ⟨⟨fun _ => Or.inr hbt, fun _ => ⟨_, hch2⟩⟩, ?_, ?_, ?_⟩
      · intro s hsome _
        exact absurd hsome (by simp [bodyTextField])
      · intro h; exact absurd (hstf.symm.trans h) (by decide)
      · intro e _ _ hsend
        have he : "JSON parse error: invalid JSON text" = e := by
          have h0 := hch2.symm.trans hsend
          injection h0 with h1
          injection h1
        rw [← he]
        exact parse_err_ne_status_err env.status rfl
    | some j =>
      rw [hj] at hch
      have hch2 : send_request env = .ret (deserializeSimpleOpenAIResponse j) := hch
      cases hd : deserializeSimpleOpenAIResponse j with
      | ok s =>
        rw [hd] at hch2
        have hbt : bodyTextField (some j) = some s := by
          simp [bodyTextField, hd]
        refine ⟨⟨?_, ?_⟩, ?_, ?_, ?_⟩
        · rintro ⟨e, he⟩
          have h0 := hch2.symm.trans he
          injection h0 with h1
          exact Except.noConfusion h1
        · rintro (h | h)
          · exact absurd (hstf.symm.trans h) (by decide)
          · rw [hbt] at h; exact absurd h (by simp)
        · intro s' hs' _
          rw [hbt] at hs'
          injection hs' with h1
          rw [← h1]
          exact hch2
        · intro h; exact absurd (hstf.symm.trans h) (by decide)
        · intro e hnone _ _
          rw [hbt] at hnone
          exact absurd hnone (by simp)
      | error m =>
        rw [hd] at hch2
        have hbt : bodyTextField (some j) = none := by
          simp [bodyTextField, hd]
        refine ⟨⟨fun _ => Or.inr hbt, fun _ => ⟨_, hch2⟩⟩, ?_, ?_, ?_⟩
        · intro s hsome _
          rw [hbt] at hsome
          exact absurd hsome (by simp)
        · intro h; exact absurd (hstf.symm.trans h) (by decide)
        · intro e _ _ hsend
          have he : m = e := by
            have h0 := hch2.symm.trans hsend
            injection h0 with h1
            injection h1
          rw [← he]
          exact parse_err_ne_status_err env.status (deserialize_error_head j m hd)

/-- Witness for the amended C7: HTTP 200 with body
`obj [("text", str "hello world")]` returns exactly `"hello world"`,
as in the specification's example. -/
theorem c7_status_and_parse_witness :
    send_request
      ⟨.ok (), .ok (), 200, .ok (), some (.obj [("text", .str "hello world")])⟩ =
      .ret (.ok "hello world") :=
  (c7_status_and_parse
    ⟨.ok (), .ok (), 200, .ok (), some (.obj [("text", .str "hello world")])⟩
    rfl rfl rfl).2.1 "hello world" rfl rfl

/-- Claim C9: a transport-level failure of the HTTP send (no response
received) panics through `.expect("Should return response from
server")` rather than being surfaced through the function's `Result`:
the outcome is a panic, never a `ret`. -/
theorem c9_transport_failure_panics (env : SendEnv) (msg : String)
    (hm : env.mimeResult = .ok ()) (ht : env.transport = .error msg) :
    send_request env = .panicked "Should return response from server"
    ∧ ∀ r, send_request env ≠ .ret r := by
  have h : send_request env = .panicked "Should return response from server" := by
    unfold send_request
    rw [hm, ht]
  exact ⟨h, fun r hr => SOutcome.noConfusion (h.symm.trans hr)⟩

/-- Witness for C9 at a concrete refused-connection environment. -/
theorem c9_transport_failure_panics_witness :
    send_request ⟨.ok (), .error "connection refused", 200, .ok (), none⟩ =
      .panicked "Should return response from server" :=
  (c9_transport_failure_panics ⟨.ok (), .error "connection refused", 200, .ok (), none⟩
    "connection refused" rfl rfl).1

/-! ## Claims C5, C6. -/

/-- Claim C5: if the cancellation signal wins the select race before any
stdin byte, the recorder subprocess is killed — no quit byte is ever
written to its stdin — and `execute_parse_command` returns `Ok` with
the empty string, not an error. -/
theorem c5_cancellation_kills (env : ParseEnv) (p : String × String)
    (h1 : env.tempPath = .ok p) (h2 : env.spawnResult = .ok ())
    (h3 : env.race = .cancelledFirst) (h4 : env.killResult = .ok ()) :
    execute_parse_command env =
      ⟨.ret (.ok ""), [], [.removeTempFile, .spawnRecorder, .killRecorder]⟩
    ∧ ∀ c, Ev.writeRecorderStdin c ∉ (execute_parse_command env).events := by
  have h : execute_parse_command env =
      ⟨.ret (.ok ""), [], [.removeTempFile, .spawnRecorder, .killRecorder]⟩ := by
    unfold execute_parse_command
    rw [h1, h2, h3, h4]
  refine ⟨h, fun c => ?_⟩
  rw [h]
  simp

/-- Witness for C5 at a concrete environment. -/
theorem c5_cancellation_kills_witness :
    execute_parse_command
      ⟨.ok ("f.mp3", "/tmp/f.mp3"), .ok (), .cancelledFirst, .ok (), true, .ok (),
        .ok (), .ok (), .ok (), ⟨.ok (), .ok (), 200, .ok (), none⟩⟩ =
      ⟨.ret (.ok ""), [], [.removeTempFile, .spawnRecorder, .killRecorder]⟩ :=
  (c5_cancellation_kills
    ⟨.ok ("f.mp3", "/tmp/f.mp3"), .ok (), .cancelledFirst, .ok (), true, .ok (),
      .ok (), .ok (), .ok (), ⟨.ok (), .ok (), 200, .ok (), none⟩⟩
    ("f.mp3", "/tmp/f.mp3") rfl rfl rfl rfl).1

/-- Claim C6: if a stdin byte wins the select race, the session writes
exactly one byte `q` to the recorder's stdin, flushes it, then waits
for the recorder to exit before opening the output file, and never
kills the recorder on this path. -/
theorem c6_quit_byte_then_wait (env : ParseEnv) (p : String × String)
    (h1 : env.tempPath = .ok p) (h2 : env.spawnResult = .ok ())
    (h3 : env.race = .stdinByteFirst) (h4 : env.stdinHandle = true)
    (h5 : env.writeResult = .ok ()) (h6 : env.flushResult = .ok ())
    (h7 : env.waitResult = .ok ()) :
    (∃ rest, (execute_parse_command env).events =
      [.removeTempFile, .spawnRecorder, .writeRecorderStdin 'q', .flushRecorderStdin,
       .waitRecorder, .openOutput] ++ rest)
    ∧ Ev.killRecorder ∉ (execute_parse_command env).events
    ∧ ((execute_parse_command env).events.countP
        (fun ev => match ev with | .writeRecorderStdin _ => true | _ => false)) = 1 := by
  cases ho : env.openResult with
  | error e =>
    have h : (execute_parse_command env).events =
        [.removeTempFile, .spawnRecorder, .writeRecorderStdin 'q', .flushRecorderStdin,
         .waitRecorder, .openOutput] := by
      unfold execute_parse_command
      rw [h1, h2, h3, h4, h5, h6, h7, ho]
      rfl
    exact ⟨⟨[], by rw [h]; rfl⟩, by rw [h]; decide, by rw [h]; decide⟩
  | ok u =>
    cases u
    cases hs2 : send_request env.sendEnv with
    | panicked m =>
      have h : (execute_parse_command env).events =
          [.removeTempFile, .spawnRecorder, .writeRecorderStdin 'q', .flushRecorderStdin,
           .waitRecorder, .openOutput, .callSend] := by
        unfold execute_parse_command
        rw [h1, h2, h3, h4, h5, h6, h7, ho, hs2]
        rfl
      exact ⟨⟨[.callSend], by rw [h]; rfl⟩, by rw [h]; decide, by rw [h]; decide⟩
    | ret r =>
      cases r with
      | ok v =>
        have h : (execute_parse_command env).events =
            [.removeTempFile, .spawnRecorder, .writeRecorderStdin 'q',
             .flushRecorderStdin, .waitRecorder, .openOutput, .callSend] := by
          unfold execute_parse_command
          rw [h1, h2, h3, h4, h5, h6, h7, ho, hs2]
          rfl
        exact ⟨⟨[.callSend], by rw [h]; rfl⟩, by rw [h]; decide, by rw [h]; decide⟩
      | error e =>
        have h : (execute_parse_command env).events =
            [.removeTempFile, .spawnRecorder, .writeRecorderStdin 'q',
             .flushRecorderStdin, .waitRecorder, .openOutput, .callSend] := by
          unfold execute_parse_command
          rw [h1, h2, h3, h4, h5, h6, h7, ho, hs2]
          rfl
        exact ⟨⟨[.callSend], by rw [h]; rfl⟩, by rw [h]; decide, by rw [h]; decide⟩

/-- Witness for C6 at a concrete environment (body of the transcription
response present, so the full path through `send_request` runs). -/
theorem c6_quit_byte_then_wait_witness :
    (∃ rest, (execute_parse_command
      ⟨.ok ("f.mp3", "/tmp/f.mp3"), .ok (), .stdinByteFirst, .ok (), true, .ok (),
        .ok (), .ok (), .ok (),
        ⟨.ok (), .ok (), 200, .ok (), some (.obj [("text", .str "hi")])⟩⟩).events =
      [.removeTempFile, .spawnRecorder, .writeRecorderStdin 'q', .flushRecorderStdin,
       .waitRecorder, .openOutput] ++ rest)
    ∧ Ev.killRecorder ∉ (execute_parse_command
      ⟨.ok ("f.mp3", "/tmp/f.mp3"), .ok (), .stdinByteFirst, .ok (), true, .ok (),
        .ok (), .ok (), .ok (),
        ⟨.ok (), .ok (), 200, .ok (), some (.obj [("text", .str "hi")])⟩⟩).events :=
  let t := c6_quit_byte_then_wait
    ⟨.ok ("f.mp3", "/tmp/f.mp3"), .ok (), .stdinByteFirst, .ok (), true, .ok (),
      .ok (), .ok (), .ok (),
      ⟨.ok (), .ok (), 200, .ok (), some (.obj [("text", .str "hi")])⟩⟩
    ("f.mp3", "/tmp/f.mp3") rfl rfl rfl rfl rfl rfl rfl
  ⟨t.1, t.2.1⟩

/-! ## Claims C8, C1. -/

/-- With `transcribe` arguments and the key set, `mainModel` reduces to
the checked `transcribe` arm. -/
theorem mainModel_transcribe (env : MainEnv) (lang dev key : String)
    (ha : env.cmdArgs = ["transcribe", lang, dev]) (hk : env.openaiKey = some key) :
    mainModel env = transcribeChecked env.ffmpegEnv env.parseEnv lang dev := by
  unfold mainModel
  rw [ha, hk]
  rfl

/-- Claim C8: for `transcribe`, an unknown device name — one not in the
`get_audio_devices` result — exits with code 1 without entering
`execute_parse_command` or spawning a recording subprocess, and so does
a language outside en/pl. -/
theorem c8_validation_before_recording (env : MainEnv) (lang dev key : String)
    (ha : env.cmdArgs = ["transcribe", lang, dev]) (hk : env.openaiKey = some key) :
    (∀ ds, get_audio_devices env.ffmpegEnv = .ok ds → ds.contains dev = false →
      (mainModel env).out = .exited 1
      ∧ Ev.enterParse ∉ (mainModel env).events
      ∧ Ev.spawnRecorder ∉ (mainModel env).events)
    ∧ (lang ≠ "en" → lang ≠ "pl" →
      (mainModel env).out = .exited 1
      ∧ Ev.enterParse ∉ (mainModel env).events
      ∧ Ev.spawnRecorder ∉ (mainModel env).events) := by
  have hM := mainModel_transcribe env lang dev key ha hk
  constructor
  · intro ds hds hcont
    by_cases hl : lang ≠ "en" ∧ lang ≠ "pl"
    · have hM2 : mainModel env =
          ⟨.exited 1, [], ["Unknown language, supported languages: 'en', 'pl'."], []⟩ := by
        rw [hM]
        unfold transcribeChecked
        rw [if_pos hl]
      rw [hM2]
      exact ⟨rfl, by decide, by decide⟩
    · have hM2 : mainModel env =
          ⟨.exited 1, [], ["This audio device does not exist."], [.listDevices]⟩ := by
        rw [hM]
        unfold transcribeChecked
        rw [if_neg hl]
        simp only [hds, hcont]
        rfl
      rw [hM2]
      exact ⟨rfl, by decide, by decide⟩
  · intro hen hpl
    have hM2 : mainModel env =
        ⟨.exited 1, [], ["Unknown language, supported languages: 'en', 'pl'."], []⟩ := by
      rw [hM]
      unfold transcribeChecked
      rw [if_pos ⟨hen, hpl⟩]
    rw [hM2]
    exact ⟨rfl, by decide, by decide⟩

/-- Witness for C8: both conjuncts at concrete environments — a device
absent from the enumeration, and an unsupported language. -/
theorem c8_validation_before_recording_witness :
    ((mainModel unknownDeviceEnv).out = .exited 1
      ∧ Ev.enterParse ∉ (mainModel unknownDeviceEnv).events
      ∧ Ev.spawnRecorder ∉ (mainModel unknownDeviceEnv).events)
    ∧ ((mainModel badLanguageEnv).out = .exited 1
      ∧ Ev.enterParse ∉ (mainModel badLanguageEnv).events
      ∧ Ev.spawnRecorder ∉ (mainModel badLanguageEnv).events) :=
  ⟨(c8_validation_before_recording unknownDeviceEnv "en" "Mic Z" "sk-key" rfl rfl).1
      ["Mic A"] (by decide) (by decide),
    (c8_validation_before_recording badLanguageEnv "de" "Mic A" "sk-key" rfl rfl).2
      (by decide) (by decide)⟩

/-- Claim C1 (the code at the failing input): with valid
`transcribe en "Mic A"` arguments, the key set and the device present,
a failing `execute_parse_command` (here: recorder spawn failure) has
its error printed to stderr, but `main` falls off the end of the
`match` at main.rs 274-277 without calling `exit`, so the process exits
with code 0 — not the non-zero exit the specification requires. -/
theorem c1_parse_error_exits_zero :
    mainModel failingRecorderEnv =
      ⟨.exited 0, [],
        ["could not spawn ffmpeg process that listens to microphone: program not found"],
        [.listDevices, .enterParse, .removeTempFile]⟩ := by
  decide

end WhisperConnector
